import Mathlib

/-!
Verification of the alertsphere backend (src/index.js) against its
natural-language specification.

The backend is a single stateless Express process with three POST
endpoints (/register, /send-otp, /verify-otp), delegating storage, OTP
delivery and OTP validation to an external hosted service (Supabase) and
password hashing to the bcrypt library.  We shallowly embed each request
handler as a pure Lean function from the request body and a record of
the external service outcomes for this request to the HTTP response
plus the ordered list of external calls (effects) the handler performed.
The external service and the external validator/hash libraries are
opaque collaborators, so their per-request answers are fields of a
`Service` record and their string predicates are fields of a
`Validators` record; the handlers themselves translate statement by
statement from src/index.js.
-/

/-- A JavaScript JSON value as it can appear in a parsed request body
field: string, boolean, number (integers suffice for the properties at
stake) or null.  A missing field is `Option.none` at the use sites. -/
inductive JsVal where
  | str (s : String)
  | bool (b : Bool)
  | num (n : Int)
  | null
deriving DecidableEq, Repr

/-- JavaScript truthiness of a possibly-absent value, as used by
`if (existingUser)`, `if (!phone)` and `isOfficer ? _ : _` in the
source: undefined, null, false, the empty string and 0 are falsy,
everything else is truthy. -/
def truthy : Option JsVal → Bool
  | none => false
  | some JsVal.null => false
  | some (JsVal.bool b) => b
  | some (JsVal.str s) => !(s == "")
  | some (JsVal.num n) => !(n == 0)

/-- The string express-validator hands to each validator.js predicate:
the raw field value converted to a string, with undefined and null
becoming the empty string (express-validator toString semantics). -/
def toValidatorString : Option JsVal → String
  | none => ""
  | some JsVal.null => ""
  | some (JsVal.str s) => s
  | some (JsVal.bool b) => if b then "true" else "false"
  | some (JsVal.num n) => toString n

/-- Modelled from the spec: the validator.js string predicates invoked
by the express-validator chain in src/index.js lines 25-30 (`isEmail`,
`isMobilePhone`, `isBoolean`).  They live in the external
validator.js library, not in this repository, so they are opaque
parameters of the development. -/
structure Validators where
  isEmail : String → Bool
  isMobilePhone : String → Bool
  isBoolean : String → Bool

/-- One entry of the `errors.array()` response produced by
express-validator: the offending field path and its message. -/
structure FieldError where
  path : String
  msg : String
deriving DecidableEq, Repr

/-- The body of a /register request, one optional JSON value per field
named in the validator chain (`none` models an absent field). -/
structure RegisterReq where
  fullName : Option JsVal
  email : Option JsVal
  phone : Option JsVal
  password : Option JsVal
  anonymous : Option JsVal
  isOfficer : Option JsVal
deriving DecidableEq, Repr

/-- The violation for `body(\x7bfullName\x7d).isLength(\x7bmin: 3\x7d)`. -/
def fullNameErr : FieldError :=
  { path := "fullName", msg := "Full name must be at least 3 characters long" }

/-- The violation for `body(\x7bemail\x7d).isEmail()`. -/
def emailErr : FieldError :=
  { path := "email", msg := "Invalid email address" }

/-- The violation for `body(\x7bphone\x7d).isMobilePhone()`. -/
def phoneErr : FieldError :=
  { path := "phone", msg := "Invalid phone number" }

/-- The violation for `body(\x7bpassword\x7d).isLength(\x7bmin: 6\x7d)`. -/
def passwordErr : FieldError :=
  { path := "password", msg := "Password must be at least 6 characters long" }

/-- The violation for `body(\x7banonymous\x7d).isBoolean()`. -/
def anonymousErr : FieldError :=
  { path := "anonymous", msg := "Anonymous status must be a boolean" }

/-- The violation for `body(\x7bisOfficer\x7d).isBoolean()`. -/
def isOfficerErr : FieldError :=
  { path := "isOfficer", msg := "isOfficer must be a boolean" }

/-- The /register validator chain of src/index.js lines 24-31: each
field is checked independently against its own rule and every failing
rule contributes its error, in declaration order, exactly as
`validationResult(req).array()` collects them. -/
def validateRegister (v : Validators) (r : RegisterReq) : List FieldError :=
  (if 3 ≤ (toValidatorString r.fullName).length then [] else [fullNameErr]) ++
  (if v.isEmail (toValidatorString r.email) then [] else [emailErr]) ++
  (if v.isMobilePhone (toValidatorString r.phone) then [] else [phoneErr]) ++
  (if 6 ≤ (toValidatorString r.password).length then [] else [passwordErr]) ++
  (if v.isBoolean (toValidatorString r.anonymous) then [] else [anonymousErr]) ++
  (if v.isBoolean (toValidatorString r.isOfficer) then [] else [isOfficerErr])

/-- An error object as returned by the Supabase client in the `error`
half of its result (never thrown; carries a message the handler only
logs). -/
structure SbError where
  message : String
deriving DecidableEq, Repr

/-- The row shape returned by `select(\x7bid\x7d).eq(..).single()`:
just the id column. -/
structure UserRow where
  id : Option JsVal
deriving DecidableEq, Repr

/-- The record inserted into the `users` table by the /register handler
(src/index.js lines 56-67).  Field names follow the insert payload. -/
structure UserRecord where
  full_name : Option JsVal
  email : Option JsVal
  phone : Option JsVal
  password : String
  role : String
  anonymous_status : Option JsVal
  officer_verification : Option JsVal
  verification_status : Bool
deriving DecidableEq, Repr

/-- One external call performed by a handler, recorded in the order the
source performs them. -/
inductive Effect where
  | lookupEmail (email : Option JsVal)
  | hashPassword (password : Option JsVal)
  | insertUser (payload : UserRecord)
  | sendOtpTo (phone : Option JsVal)
  | verifyOtpWith (phone token : Option JsVal)
  | updateVerification (phone : Option JsVal)
deriving DecidableEq, Repr

/-- The outcomes the external collaborators report to this request.
`lookupByEmail` returns the `(data, error)` pair of
`select(\x7bid\x7d).eq(\x7bemail\x7d, email).single()`; `hash` is the
bcrypt digest for the submitted password; the remaining fields are the
`error` halves of the corresponding Supabase calls (`none` = success). -/
structure Service where
  lookupByEmail : Option JsVal → Option UserRow × Option SbError
  hash : Option JsVal → String
  insertUser : UserRecord → Option SbError
  signInWithOtp : Option JsVal → Option SbError
  verifyOtpCall : Option JsVal → Option JsVal → Option SbError
  updateByPhone : Option JsVal → Option SbError

/-- An HTTP response body: either a single `message` JSON field or the
`errors` array of validation violations. -/
inductive RespBody where
  | message (msg : String)
  | validationErrors (errs : List FieldError)
deriving DecidableEq, Repr

/-- An HTTP response: status code and JSON body. -/
structure Response where
  status : Nat
  body : RespBody
deriving DecidableEq, Repr

/-- The uniform 500 response of every catch block in src/index.js. -/
def internalErrorResp : Response :=
  { status := 500, body := RespBody.message "Internal server error." }

/-- The insert payload built at src/index.js lines 56-67 from the
destructured body fields and the bcrypt digest; `isOfficer ? _ : _`
is JavaScript truthiness on the raw field value. -/
def insertPayload (hashedPassword : String) (r : RegisterReq) : UserRecord :=
  { full_name := r.fullName
  , email := r.email
  , phone := r.phone
  , password := hashedPassword
  , role := if truthy r.isOfficer then "Law Enforcement Officer" else "Citizen"
  , anonymous_status := r.anonymous
  , officer_verification :=
      if truthy r.isOfficer then some (JsVal.bool false) else some JsVal.null
  , verification_status := false }

/-- The POST /register handler (src/index.js lines 22-79).  The lookup
result is destructured as `\x7b data: existingUser \x7d`, so only the
data half is inspected and the lookup error half is discarded; a
reported insert error is thrown and caught, producing the uniform 500
response. -/
def registerHandler (v : Validators) (svc : Service) (r : RegisterReq) :
    Response × List Effect :=
  let errs := validateRegister v r
  if errs.isEmpty then
    match svc.lookupByEmail r.email with
    | (some _, _) =>
        ({ status := 400, body := RespBody.message "Email is already registered." },
         [Effect.lookupEmail r.email])
    | (none, _) =>
        let hashedPassword := svc.hash r.password
        let payload := insertPayload hashedPassword r
        match svc.insertUser payload with
        | some _ =>
            (internalErrorResp,
             [Effect.lookupEmail r.email, Effect.hashPassword r.password,
              Effect.insertUser payload])
        | none =>
            ({ status := 200,
               body := RespBody.message "Registration successful. Please verify your phone." },
             [Effect.lookupEmail r.email, Effect.hashPassword r.password,
              Effect.insertUser payload])
  else
    ({ status := 400, body := RespBody.validationErrors errs }, [])

/-- The POST /send-otp handler (src/index.js lines 82-101): `if (!phone)`
rejects any falsy phone before the external call; a reported dispatch
error is thrown and caught, producing the uniform 500 response. -/
def sendOtpHandler (svc : Service) (phone : Option JsVal) :
    Response × List Effect :=
  if truthy phone then
    match svc.signInWithOtp phone with
    | some _ => (internalErrorResp, [Effect.sendOtpTo phone])
    | none =>
        ({ status := 200, body := RespBody.message "OTP sent successfully." },
         [Effect.sendOtpTo phone])
  else
    ({ status := 400, body := RespBody.message "Phone number is required." }, [])

/-- The POST /verify-otp handler (src/index.js lines 104-137):
`if (!phone || !token)` rejects falsy fields before any external call;
a reported verification error or update error is thrown and caught,
producing the uniform 500 response; on full success the users rows with
this phone get verification_status set to true and the response is 200. -/
def verifyOtpHandler (svc : Service) (phone token : Option JsVal) :
    Response × List Effect :=
  if truthy phone && truthy token then
    match svc.verifyOtpCall phone token with
    | some _ => (internalErrorResp, [Effect.verifyOtpWith phone token])
    | none =>
        match svc.updateByPhone phone with
        | some _ =>
            (internalErrorResp,
             [Effect.verifyOtpWith phone token, Effect.updateVerification phone])
        | none =>
            ({ status := 200, body := RespBody.message "Phone verified successfully." },
             [Effect.verifyOtpWith phone token, Effect.updateVerification phone])
  else
    ({ status := 400, body := RespBody.message "Phone and OTP token are required." }, [])

/-- Semantics of `update(\x7b verification_status: true \x7d).eq(\x7bphone\x7d, phone)`
on a stored users table: every row whose phone column equals the
submitted phone gets verification_status set to true, all other rows
and all other columns are untouched. -/
def applyUpdate (phone : Option JsVal) (db : List UserRecord) : List UserRecord :=
  db.map fun rec =>
    if rec.phone = phone then { rec with verification_status := true } else rec

/-- Interpretation of a handler effect trace on a stored users table:
inserts append a row, verification updates apply `applyUpdate`, all
other effects leave the table unchanged. -/
def runEffects (db : List UserRecord) : List Effect → List UserRecord
  | [] => db
  | Effect.insertUser rec :: es => runEffects (db ++ [rec]) es
  | Effect.updateVerification p :: es => runEffects (applyUpdate p db) es
  | Effect.lookupEmail _ :: es => runEffects db es
  | Effect.hashPassword _ :: es => runEffects db es
  | Effect.sendOtpTo _ :: es => runEffects db es
  | Effect.verifyOtpWith _ _ :: es => runEffects db es

/-- Modelled from the spec: the contract of the external bcrypt
library (a salted one-way hash with fixed cost factor, not code of
this repository).  We capture its checkable consequence that the
digest stored in place of the plaintext never equals the plaintext. -/
def HashContract (hash : Option JsVal → String) : Prop :=
  ∀ p : String, hash (some (JsVal.str p)) ≠ p

/-! Concrete fixtures used by witnesses and counterexamples. -/

/-- Concrete instantiation of the opaque validator.js predicates, used
only to evaluate witnesses on concrete requests. -/
def cValidators : Validators :=
  { isEmail := fun s => !(s == "")
  , isMobilePhone := fun s => !(s == "")
  , isBoolean := fun s => s == "true" || s == "false" || s == "0" || s == "1" }

/-- A well-formed registration request. -/
def cReq : RegisterReq :=
  { fullName := some (JsVal.str "Alice Smith")
  , email := some (JsVal.str "a@b.com")
  , phone := some (JsVal.str "+15551234567")
  , password := some (JsVal.str "secret1")
  , anonymous := some (JsVal.bool false)
  , isOfficer := some (JsVal.bool true) }

/-- A registration request with several invalid fields. -/
def cBadReq : RegisterReq :=
  { fullName := some (JsVal.str "Al")
  , email := some (JsVal.str "")
  , phone := some (JsVal.str "+15551234567")
  , password := some (JsVal.str "short")
  , anonymous := some (JsVal.str "maybe")
  , isOfficer := some (JsVal.bool true) }

/-- A stored row as the duplicate-email lookup would return it. -/
def cRow : UserRow := { id := some (JsVal.num 1) }

/-- A concrete phone field value. -/
def cPhone : Option JsVal := some (JsVal.str "+15551234567")

/-- A concrete OTP token field value. -/
def cToken : Option JsVal := some (JsVal.str "123456")

/-- A concrete error reported by the external service. -/
def cErr : SbError := { message := "boom" }

/-- A service for which every external call succeeds and the lookup
finds no account. -/
def cSvcOk : Service :=
  { lookupByEmail := fun _ => (none, none)
  , hash := fun x => "$2b$10$" ++ toValidatorString x
  , insertUser := fun _ => none
  , signInWithOtp := fun _ => none
  , verifyOtpCall := fun _ _ => none
  , updateByPhone := fun _ => none }

/-- A service whose email lookup finds an existing account. -/
def cSvcFound : Service := { cSvcOk with lookupByEmail := fun _ => (some cRow, none) }

/-- A service whose email lookup reports an error (and returns no data). -/
def cSvcLookupErr : Service :=
  { cSvcOk with lookupByEmail := fun _ => (none, some { message := "connection reset by peer" }) }

/-- A service whose insert reports an error. -/
def cSvcInsertErr : Service := { cSvcOk with insertUser := fun _ => some cErr }

/-- A service whose OTP dispatch reports an error. -/
def cSvcSendErr : Service := { cSvcOk with signInWithOtp := fun _ => some cErr }

/-- A service whose OTP verification reports an error. -/
def cSvcVerifyErr : Service := { cSvcOk with verifyOtpCall := fun _ _ => some cErr }

/-- A service whose verification-status update reports an error. -/
def cSvcUpdateErr : Service := { cSvcOk with updateByPhone := fun _ => some cErr }

/-- The concrete hash of `cSvcOk` satisfies the modelled bcrypt
contract: the digest never equals the plaintext. -/
theorem cHashContract : HashContract cSvcOk.hash := by
  intro p h
  have h2 : ("$2b$10$" ++ p).length = p.length := by
    have hh : cSvcOk.hash (some (JsVal.str p)) = "$2b$10$" ++ p := rfl
    rw [hh] at h
    rw [h]
  rw [String.length_append] at h2
  have h7 : ("$2b$10$" : String).length = 7 := rfl
  omega

/-! Claim theorems. -/

/-- C1: a /register request that passes validation and whose email
lookup finds an existing account is answered 400 with the message
"Email is already registered.", and the only external call performed
is the lookup: no password hash is computed and no record is
inserted. -/
theorem register_duplicate_email_conflict (v : Validators) (svc : Service)
    (r : RegisterReq) (row : UserRow) (e : Option SbError)
    (hval : validateRegister v r = [])
    (hfound : svc.lookupByEmail r.email = (some row, e)) :
    registerHandler v svc r =
      ({ status := 400, body := RespBody.message "Email is already registered." },
       [Effect.lookupEmail r.email]) := by
  simp [registerHandler, hval, hfound]

/-- C1 witness: evaluating the handler on a concrete duplicate-email
request. -/
theorem register_duplicate_email_conflict_witness :
    registerHandler cValidators cSvcFound cReq =
      ({ status := 400, body := RespBody.message "Email is already registered." },
       [Effect.lookupEmail cReq.email]) :=
  register_duplicate_email_conflict cValidators cSvcFound cReq cRow none
    (by decide) (by decide)

/-- C7: a /verify-otp request whose external code validation reports an
error (invalid and expired codes surface identically, as one error
branch) is answered with the uniform 500 response, and no update call
is made, so any stored table is left unchanged. -/
theorem verify_otp_invalid_500 (svc : Service) (phone token : Option JsVal)
    (e : SbError) (db : List UserRecord)
    (hp : truthy phone = true) (ht : truthy token = true)
    (herr : svc.verifyOtpCall phone token = some e) :
    verifyOtpHandler svc phone token =
      (internalErrorResp, [Effect.verifyOtpWith phone token]) ∧
    runEffects db (verifyOtpHandler svc phone token).2 = db := by
  have hh : verifyOtpHandler svc phone token =
      (internalErrorResp, [Effect.verifyOtpWith phone token]) := by
    simp [verifyOtpHandler, hp, ht, herr]
  exact ⟨hh, by rw [hh]; simp [runEffects]⟩

/-- C7 witness: evaluating the handler against a service that rejects
the code. -/
theorem verify_otp_invalid_500_witness :
    verifyOtpHandler cSvcVerifyErr cPhone cToken =
      (internalErrorResp, [Effect.verifyOtpWith cPhone cToken]) ∧
    runEffects [] (verifyOtpHandler cSvcVerifyErr cPhone cToken).2 = [] :=
  verify_otp_invalid_500 cSvcVerifyErr cPhone cToken cErr []
    (by decide) (by decide) (by decide)

/-- C8: /send-otp answers 400 before any external call when the phone
field is missing or falsy; when the phone is truthy it performs the
dispatch call, answering 200 whenever the external dispatch succeeds
and the uniform 500 when the dispatch reports an error. -/
theorem send_otp_contract (svc : Service) (phone : Option JsVal) :
    (truthy phone = false →
      sendOtpHandler svc phone =
        ({ status := 400, body := RespBody.message "Phone number is required." }, [])) ∧
    (truthy phone = true → svc.signInWithOtp phone = none →
      sendOtpHandler svc phone =
        ({ status := 200, body := RespBody.message "OTP sent successfully." },
         [Effect.sendOtpTo phone])) ∧
    (∀ e, truthy phone = true → svc.signInWithOtp phone = some e →
      sendOtpHandler svc phone = (internalErrorResp, [Effect.sendOtpTo phone])) := by
  refine ⟨fun h => by simp [sendOtpHandler, h],
          fun h hs => by simp [sendOtpHandler, h, hs],
          fun e h hs => by simp [sendOtpHandler, h, hs]⟩

/-- C8 witness: the three branches evaluated on concrete inputs. -/
theorem send_otp_contract_witness :
    sendOtpHandler cSvcOk none =
      ({ status := 400, body := RespBody.message "Phone number is required." }, []) ∧
    sendOtpHandler cSvcOk cPhone =
      ({ status := 200, body := RespBody.message "OTP sent successfully." },
       [Effect.sendOtpTo cPhone]) ∧
    sendOtpHandler cSvcSendErr cPhone = (internalErrorResp, [Effect.sendOtpTo cPhone]) :=
  ⟨(send_otp_contract cSvcOk none).1 (by decide),
   (send_otp_contract cSvcOk cPhone).2.1 (by decide) (by decide),
   (send_otp_contract cSvcSendErr cPhone).2.2 cErr (by decide) (by decide)⟩

/-- C9: every falsy value of a required field (absent, null, false, the
empty string, 0) is treated as missing: /send-otp and /verify-otp
answer 400 with no external call, and in particular /verify-otp with
an empty-string token answers 400 whatever the phone is. -/
theorem falsy_required_fields_rejected (svc : Service) (phone token : Option JsVal) :
    (∀ x ∈ ([none, some JsVal.null, some (JsVal.bool false),
             some (JsVal.str ""), some (JsVal.num 0)] : List (Option JsVal)),
      truthy x = false) ∧
    (truthy phone = false →
      sendOtpHandler svc phone =
        ({ status := 400, body := RespBody.message "Phone number is required." }, [])) ∧
    (truthy phone = false ∨ truthy token = false →
      verifyOtpHandler svc phone token =
        ({ status := 400, body := RespBody.message "Phone and OTP token are required." }, [])) ∧
    verifyOtpHandler svc phone (some (JsVal.str "")) =
      ({ status := 400, body := RespBody.message "Phone and OTP token are required." }, []) := by
  have hempty : truthy (some (JsVal.str "")) = false := by decide
  refine ⟨by decide, fun h => by simp [sendOtpHandler, h], fun h => ?_, ?_⟩
  · rcases h with h | h <;> simp [verifyOtpHandler, h]
  · simp [verifyOtpHandler, hempty]

/-- C9 witness: concrete falsy field values rejected with 400 and no
external call. -/
theorem falsy_required_fields_rejected_witness :
    sendOtpHandler cSvcOk (some (JsVal.num 0)) =
      ({ status := 400, body := RespBody.message "Phone number is required." }, []) ∧
    verifyOtpHandler cSvcOk cPhone (some (JsVal.bool false)) =
      ({ status := 400, body := RespBody.message "Phone and OTP token are required." }, []) ∧
    verifyOtpHandler cSvcOk cPhone (some (JsVal.str "")) =
      ({ status := 400, body := RespBody.message "Phone and OTP token are required." }, []) :=
  ⟨(falsy_required_fields_rejected cSvcOk (some (JsVal.num 0)) none).2.1 (by decide),
   (falsy_required_fields_rejected cSvcOk cPhone (some (JsVal.bool false))).2.2.1
     (Or.inr (by decide)),
   (falsy_required_fields_rejected cSvcOk cPhone (some (JsVal.str ""))).2.2.2⟩

/-- Membership in a conditional singleton list. -/
theorem mem_if_nil {α : Type} (a b : α) (c : Prop) [Decidable c] :
    a ∈ (if c then ([] : List α) else [b]) ↔ ¬c ∧ a = b := by
  split <;> simp_all

/-- C4: a /register request with any validation violation is answered
400 carrying the full violation list, with no external call performed,
and the list collects the rules independently: each field error is
present exactly when its own rule fails, regardless of the other
fields. -/
theorem register_validation_rejects (v : Validators) (svc : Service) (r : RegisterReq)
    (h : validateRegister v r ≠ []) :
    registerHandler v svc r =
      ({ status := 400, body := RespBody.validationErrors (validateRegister v r) }, []) ∧
    (fullNameErr ∈ validateRegister v r ↔ ¬ 3 ≤ (toValidatorString r.fullName).length) ∧
    (emailErr ∈ validateRegister v r ↔ v.isEmail (toValidatorString r.email) = false) ∧
    (phoneErr ∈ validateRegister v r ↔ v.isMobilePhone (toValidatorString r.phone) = false) ∧
    (passwordErr ∈ validateRegister v r ↔ ¬ 6 ≤ (toValidatorString r.password).length) ∧
    (anonymousErr ∈ validateRegister v r ↔ v.isBoolean (toValidatorString r.anonymous) = false) ∧
    (isOfficerErr ∈ validateRegister v r ↔ v.isBoolean (toValidatorString r.isOfficer) = false) := by
  have hE : (validateRegister v r).isEmpty = false := by
    cases hv : validateRegister v r with
    | nil => exact absurd hv h
    | cons a l => rfl
  refine ⟨by simp [registerHandler, hE], ?_, ?_, ?_, ?_, ?_, ?_⟩ <;>
    simp +decide [validateRegister, mem_if_nil, fullNameErr, emailErr, phoneErr,
      passwordErr, anonymousErr, isOfficerErr]

/-- C4 witness: a concrete request with four violations evaluated on
the handler. -/
theorem register_validation_rejects_witness :
    registerHandler cValidators cSvcOk cBadReq =
      ({ status := 400,
         body := RespBody.validationErrors (validateRegister cValidators cBadReq) }, []) ∧
    fullNameErr ∈ validateRegister cValidators cBadReq :=
  ⟨(register_validation_rejects cValidators cSvcOk cBadReq (by decide)).1,
   (register_validation_rejects cValidators cSvcOk cBadReq (by decide)).2.1.mpr (by decide)⟩

/-- C5: a persisted /register request stores role and
officer-verification determined by the boolean isOfficer field: true
gives role "Law Enforcement Officer" with officer_verification false,
false gives role "Citizen" with officer_verification null. -/
theorem register_role_from_isOfficer (v : Validators) (svc : Service)
    (r : RegisterReq) (b : Bool)
    (hval : validateRegister v r = [])
    (hnone : (svc.lookupByEmail r.email).1 = none)
    (hins : svc.insertUser (insertPayload (svc.hash r.password) r) = none)
    (hb : r.isOfficer = some (JsVal.bool b)) :
    (registerHandler v svc r).2 =
      [Effect.lookupEmail r.email, Effect.hashPassword r.password,
       Effect.insertUser (insertPayload (svc.hash r.password) r)] ∧
    (insertPayload (svc.hash r.password) r).role =
      (if b then "Law Enforcement Officer" else "Citizen") ∧
    (insertPayload (svc.hash r.password) r).officer_verification =
      (if b then some (JsVal.bool false) else some JsVal.null) := by
  cases hl : svc.lookupByEmail r.email with
  | mk d err =>
    rw [hl] at hnone
    simp only [Prod.fst] at hnone
    subst hnone
    refine ⟨by simp [registerHandler, hval, hl, hins], ?_, ?_⟩
    · rw [insertPayload, hb]
      cases b <;> simp [truthy]
    · rw [insertPayload, hb]
      cases b <;> simp [truthy]

/-- C5 witness: a concrete officer registration evaluated on the
handler. -/
theorem register_role_from_isOfficer_witness :
    (registerHandler cValidators cSvcOk cReq).2 =
      [Effect.lookupEmail cReq.email, Effect.hashPassword cReq.password,
       Effect.insertUser (insertPayload (cSvcOk.hash cReq.password) cReq)] ∧
    (insertPayload (cSvcOk.hash cReq.password) cReq).role =
      (if true then "Law Enforcement Officer" else "Citizen") ∧
    (insertPayload (cSvcOk.hash cReq.password) cReq).officer_verification =
      (if true then some (JsVal.bool false) else some JsVal.null) :=
  register_role_from_isOfficer cValidators cSvcOk cReq true
    (by decide) (by decide) (by decide) (by decide)

/-- C6: a syntactically valid new registration (validation passes, the
lookup finds no account, the insert succeeds) is answered 200, and the
stored record has verification_status false and stores the external
hash digest in place of the password; under the modelled bcrypt
contract the stored digest differs from the plaintext password. -/
theorem register_success_stored_record (v : Validators) (svc : Service)
    (r : RegisterReq) (p : String)
    (hval : validateRegister v r = [])
    (hnone : (svc.lookupByEmail r.email).1 = none)
    (hins : svc.insertUser (insertPayload (svc.hash r.password) r) = none)
    (hhash : HashContract svc.hash)
    (hp : r.password = some (JsVal.str p)) :
    (registerHandler v svc r).1 =
      { status := 200,
        body := RespBody.message "Registration successful. Please verify your phone." } ∧
    (registerHandler v svc r).2 =
      [Effect.lookupEmail r.email, Effect.hashPassword r.password,
       Effect.insertUser (insertPayload (svc.hash r.password) r)] ∧
    (insertPayload (svc.hash r.password) r).verification_status = false ∧
    (insertPayload (svc.hash r.password) r).password = svc.hash r.password ∧
    (insertPayload (svc.hash r.password) r).password ≠ p := by
  cases hl : svc.lookupByEmail r.email with
  | mk d err =>
    rw [hl] at hnone
    simp only [Prod.fst] at hnone
    subst hnone
    refine ⟨by simp [registerHandler, hval, hl, hins],
            by simp [registerHandler, hval, hl, hins], rfl, rfl, ?_⟩
    rw [hp]
    simpa [insertPayload] using hhash p

/-- C6 witness: a concrete valid registration evaluated on the
handler, against the concrete hash satisfying the contract. -/
theorem register_success_stored_record_witness :
    (registerHandler cValidators cSvcOk cReq).1 =
      { status := 200,
        body := RespBody.message "Registration successful. Please verify your phone." } ∧
    (registerHandler cValidators cSvcOk cReq).2 =
      [Effect.lookupEmail cReq.email, Effect.hashPassword cReq.password,
       Effect.insertUser (insertPayload (cSvcOk.hash cReq.password) cReq)] ∧
    (insertPayload (cSvcOk.hash cReq.password) cReq).verification_status = false ∧
    (insertPayload (cSvcOk.hash cReq.password) cReq).password = cSvcOk.hash cReq.password ∧
    (insertPayload (cSvcOk.hash cReq.password) cReq).password ≠ "secret1" :=
  register_success_stored_record cValidators cSvcOk cReq "secret1"
    (by decide) (by decide) (by decide) cHashContract (by decide)

/-- C2 counterexample: the register handler ignores a reported lookup
failure.  With the external service reporting an error on the email
lookup (and the insert succeeding), the concrete request is answered
200, not 500. -/
theorem lookup_failure_not_500 :
    (cSvcLookupErr.lookupByEmail cReq.email).2 =
      some { message := "connection reset by peer" } ∧
    (registerHandler cValidators cSvcLookupErr cReq).1.status = 200 := by
  decide

/-- C2 (amended): failures reported by the external service on insert,
OTP dispatch, OTP verification and the verification-status update are
each collapsed to the uniform 500 response whose body is exactly
"Internal server error.", independent of the reported detail; a
failure reported on the register email lookup, by contrast, is
discarded (only the data half of the lookup result is read). -/
theorem external_failure_collapsed_500 (v : Validators) (svc : Service)
    (r : RegisterReq) (phone token : Option JsVal) (e : SbError) :
    (validateRegister v r = [] → (svc.lookupByEmail r.email).1 = none →
      svc.insertUser (insertPayload (svc.hash r.password) r) = some e →
      (registerHandler v svc r).1 = internalErrorResp) ∧
    (truthy phone = true → svc.signInWithOtp phone = some e →
      (sendOtpHandler svc phone).1 = internalErrorResp) ∧
    (truthy phone = true → truthy token = true →
      svc.verifyOtpCall phone token = some e →
      (verifyOtpHandler svc phone token).1 = internalErrorResp) ∧
    (truthy phone = true → truthy token = true →
      svc.verifyOtpCall phone token = none → svc.updateByPhone phone = some e →
      (verifyOtpHandler svc phone token).1 = internalErrorResp) := by
  refine ⟨fun hval hnone hins => ?_,
          fun hp hs => by simp [sendOtpHandler, hp, hs],
          fun hp ht hv => by simp [verifyOtpHandler, hp, ht, hv],
          fun hp ht hv hu => by simp [verifyOtpHandler, hp, ht, hv, hu]⟩
  cases hl : svc.lookupByEmail r.email with
  | mk d err =>
    rw [hl] at hnone
    simp only [Prod.fst] at hnone
    subst hnone
    simp [registerHandler, hval, hl, hins]

/-- C2 witness: the four surfaced failure paths evaluated on concrete
services that report an error at the corresponding call. -/
theorem external_failure_collapsed_500_witness :
    (registerHandler cValidators cSvcInsertErr cReq).1 = internalErrorResp ∧
    (sendOtpHandler cSvcSendErr cPhone).1 = internalErrorResp ∧
    (verifyOtpHandler cSvcVerifyErr cPhone cToken).1 = internalErrorResp ∧
    (verifyOtpHandler cSvcUpdateErr cPhone cToken).1 = internalErrorResp :=
  ⟨(external_failure_collapsed_500 cValidators cSvcInsertErr cReq cPhone cToken cErr).1
     (by decide) (by decide) (by decide),
   (external_failure_collapsed_500 cValidators cSvcSendErr cReq cPhone cToken cErr).2.1
     (by decide) (by decide),
   (external_failure_collapsed_500 cValidators cSvcVerifyErr cReq cPhone cToken cErr).2.2.1
     (by decide) (by decide) (by decide),
   (external_failure_collapsed_500 cValidators cSvcUpdateErr cReq cPhone cToken cErr).2.2.2
     (by decide) (by decide) (by decide) (by decide)⟩

/-- C3: a /verify-otp request whose external code validation succeeds
performs the update of the records matching the submitted phone,
setting verification_status true, and is answered 200 when the update
succeeds; when the update itself reports an error the response is the
uniform 500. -/
theorem verify_otp_valid_updates (svc : Service) (phone token : Option JsVal)
    (db : List UserRecord)
    (hp : truthy phone = true) (ht : truthy token = true)
    (hok : svc.verifyOtpCall phone token = none) :
    (svc.updateByPhone phone = none →
      verifyOtpHandler svc phone token =
        ({ status := 200, body := RespBody.message "Phone verified successfully." },
         [Effect.verifyOtpWith phone token, Effect.updateVerification phone]) ∧
      runEffects db (verifyOtpHandler svc phone token).2 = applyUpdate phone db ∧
      (∀ rec ∈ applyUpdate phone db, rec.phone = phone → rec.verification_status = true)) ∧
    (∀ e, svc.updateByPhone phone = some e →
      verifyOtpHandler svc phone token =
        (internalErrorResp,
         [Effect.verifyOtpWith phone token, Effect.updateVerification phone])) := by
  refine ⟨fun hup => ?_, fun e hup => by simp [verifyOtpHandler, hp, ht, hok, hup]⟩
  have hh : verifyOtpHandler svc phone token =
      ({ status := 200, body := RespBody.message "Phone verified successfully." },
       [Effect.verifyOtpWith phone token, Effect.updateVerification phone]) := by
    simp [verifyOtpHandler, hp, ht, hok, hup]
  refine ⟨hh, by rw [hh]; simp [runEffects], ?_⟩
  intro rec hrec hph
  rw [applyUpdate, List.mem_map] at hrec
  obtain ⟨a, ha, rfl⟩ := hrec
  by_cases hcase : a.phone = phone
  · simp [hcase]
  · rw [if_neg hcase] at hph ⊢
    exact absurd hph hcase

/-- C3 witness: a concrete successful verification and a concrete
failing update evaluated on the handler. -/
theorem verify_otp_valid_updates_witness :
    verifyOtpHandler cSvcOk cPhone cToken =
      ({ status := 200, body := RespBody.message "Phone verified successfully." },
       [Effect.verifyOtpWith cPhone cToken, Effect.updateVerification cPhone]) ∧
    verifyOtpHandler cSvcUpdateErr cPhone cToken =
      (internalErrorResp,
       [Effect.verifyOtpWith cPhone cToken, Effect.updateVerification cPhone]) :=
  ⟨((verify_otp_valid_updates cSvcOk cPhone cToken [] (by decide) (by decide)
      (by decide)).1 (by decide)).1,
   (verify_otp_valid_updates cSvcUpdateErr cPhone cToken [] (by decide) (by decide)
      (by decide)).2 cErr (by decide)⟩

/-- C10: on a fully successful /verify-otp request the handler emits a
single update keyed on the submitted phone; interpreted on a stored
table this update sets verification_status true on every row whose
phone equals the submitted phone (not just one), leaves every
non-matching row identical, and changes no column other than
verification_status on the rows it touches. -/
theorem verify_otp_updates_all_matching (svc : Service) (phone token : Option JsVal)
    (db : List UserRecord)
    (hp : truthy phone = true) (ht : truthy token = true)
    (hok : svc.verifyOtpCall phone token = none)
    (hup : svc.updateByPhone phone = none) :
    (verifyOtpHandler svc phone token).2 =
      [Effect.verifyOtpWith phone token, Effect.updateVerification phone] ∧
    runEffects db (verifyOtpHandler svc phone token).2 = applyUpdate phone db ∧
    (∀ i : Nat, (applyUpdate phone db)[i]? =
      (db[i]?).map fun rec =>
        if rec.phone = phone then { rec with verification_status := true } else rec) ∧
    (∀ rec ∈ db, rec.phone = phone →
      { rec with verification_status := true } ∈ applyUpdate phone db) ∧
    (∀ rec ∈ db, ¬ rec.phone = phone → rec ∈ applyUpdate phone db) ∧
    (∀ rec : UserRecord,
      ({ rec with verification_status := true }).full_name = rec.full_name ∧
      ({ rec with verification_status := true }).email = rec.email ∧
      ({ rec with verification_status := true }).phone = rec.phone ∧
      ({ rec with verification_status := true }).password = rec.password ∧
      ({ rec with verification_status := true }).role = rec.role ∧
      ({ rec with verification_status := true }).anonymous_status = rec.anonymous_status ∧
      ({ rec with verification_status := true }).officer_verification =
        rec.officer_verification) := by
  have hh : (verifyOtpHandler svc phone token).2 =
      [Effect.verifyOtpWith phone token, Effect.updateVerification phone] := by
    simp [verifyOtpHandler, hp, ht, hok, hup]
  refine ⟨hh, by rw [hh]; simp [runEffects], ?_, ?_, ?_, ?_⟩
  · intro i
    simp [applyUpdate]
  · intro rec hrec hph
    rw [applyUpdate, List.mem_map]
    exact ⟨rec, hrec, by rw [if_pos hph]⟩
  · intro rec hrec hph
    rw [applyUpdate, List.mem_map]
    exact ⟨rec, hrec, by rw [if_neg hph]⟩
  · intro rec
    exact ⟨rfl, rfl, rfl, rfl, rfl, rfl, rfl⟩

/-- One stored account with the witness phone. -/
def cRec1 : UserRecord :=
  { full_name := some (JsVal.str "Alice Smith"), email := some (JsVal.str "a@b.com")
  , phone := cPhone, password := "h1", role := "Citizen"
  , anonymous_status := some (JsVal.bool false)
  , officer_verification := some JsVal.null, verification_status := false }

/-- A stored account with a different phone. -/
def cRec2 : UserRecord :=
  { cRec1 with email := some (JsVal.str "b@b.com"), phone := some (JsVal.str "+15550000000") }

/-- A second stored account sharing the witness phone. -/
def cRec3 : UserRecord := { cRec1 with email := some (JsVal.str "c@b.com") }

/-- A stored table with two accounts sharing the witness phone. -/
def cDb : List UserRecord := [cRec1, cRec2, cRec3]

/-- C10 witness: the successful verification evaluated against a table
in which two accounts share the submitted phone. -/
theorem verify_otp_updates_all_matching_witness :
    (verifyOtpHandler cSvcOk cPhone cToken).2 =
      [Effect.verifyOtpWith cPhone cToken, Effect.updateVerification cPhone] ∧
    runEffects cDb (verifyOtpHandler cSvcOk cPhone cToken).2 = applyUpdate cPhone cDb ∧
    { cRec1 with verification_status := true } ∈ applyUpdate cPhone cDb ∧
    { cRec3 with verification_status := true } ∈ applyUpdate cPhone cDb ∧
    cRec2 ∈ applyUpdate cPhone cDb :=
  ⟨(verify_otp_updates_all_matching cSvcOk cPhone cToken cDb (by decide) (by decide)
      (by decide) (by decide)).1,
   (verify_otp_updates_all_matching cSvcOk cPhone cToken cDb (by decide) (by decide)
      (by decide) (by decide)).2.1,
   (verify_otp_updates_all_matching cSvcOk cPhone cToken cDb (by decide) (by decide)
      (by decide) (by decide)).2.2.2.1 cRec1 (by decide) (by decide),
   (verify_otp_updates_all_matching cSvcOk cPhone cToken cDb (by decide) (by decide)
      (by decide) (by decide)).2.2.2.1 cRec3 (by decide) (by decide),
   (verify_otp_updates_all_matching cSvcOk cPhone cToken cDb (by decide) (by decide)
      (by decide) (by decide)).2.2.2.2.1 cRec2 (by decide) (by decide)⟩
